import Mathlib

/-!
Shallow embedding of `src/app1.py` (an Ollama-backed PDF summarizer).

Python strings are modelled as Lean `String`s, HTTP interactions as
explicit reply values passed into each operation (the network is the
environment), and JSON bodies at the granularity the code inspects them.
Streamlit calls (`st.error`, `st.warning`, `st.spinner`, widgets) are
side channels to the presentation layer; they are modelled as fields of
the result records (messages shown, flags raised).  The payload's
sampling options (`temperature`, `top_p`) are floating-point constants
that the code never branches on; they are not modelled.
-/

namespace OllamaPDFSummarizer

/-- JSON body of a reply to `GET {base_url}/api/tags`, at the granularity
`get_available_models` inspects it: either `response.json()` raises
(`malformed`), or it yields data in which `models_data.get('models', [])`
is a list of entries, each entry contributing its `'name'` field when
present (`some name`) and `none` when the `'name'` key is absent. -/
inductive TagsBody
  | malformed
  | object (models : List (Option String))
deriving DecidableEq

/-- Outcome of `requests.get(f"{base_url}/api/tags", timeout=5)`:
either some `requests.exceptions.RequestException` was raised (connection
refused, DNS failure, or the 5-second timeout elapsing), or an HTTP
response with a status code and a body arrived within the bound. -/
inductive TagsReply
  | reqException
  | http (status : Nat) (body : TagsBody)
deriving DecidableEq

/-- Embedding of `OllamaPDFSummarizer.check_ollama_connection`
(src/app1.py lines 13-19): `True` exactly when the GET produced a
response with status code 200; every `RequestException` is caught and
yields `False`. -/
def check_ollama_connection : TagsReply → Bool
  | .reqException => false
  | .http status _ => status == 200

/-- Result of `get_available_models`: the returned Python list, or an
uncaught exception escaping the function (the `except` clause only
catches `RequestException`). -/
inductive ListModelsOutcome
  | ok (names : List String)
  | raised
deriving DecidableEq

/-- The list comprehension `[model['name'] for model in models]`
(src/app1.py line 27): evaluated left to right, producing the names in
order, and raising an uncaught `KeyError` at the first entry whose
`'name'` key is missing. -/
def namesFrom : List (Option String) → Option (List String)
  | [] => some []
  | none :: _ => none
  | some n :: rest => (namesFrom rest).map (n :: ·)

/-- Embedding of `OllamaPDFSummarizer.get_available_models`
(src/app1.py lines 21-30).  A `RequestException` from the GET — and,
in current `requests`, the `JSONDecodeError` raised by `response.json()`
on an unparsable body, which subclasses `RequestException` — is caught
and yields `[]`; a non-200 status yields `[]`; a `KeyError` from the
comprehension is NOT caught and escapes. -/
def get_available_models : TagsReply → ListModelsOutcome
  | .reqException => .ok []
  | .http status body =>
    if status == 200 then
      match body with
      | .malformed => .ok []
      | .object models =>
        match namesFrom models with
        | some names => .ok names
        | none => .raised
    else .ok []

/-- The uploaded document as the PyPDF2 collaborator presents it to
`extract_text_from_pdf`: either `PdfReader` succeeds and each page's
`extract_text()` returns a string (`ok pages`, in page order, possibly
the empty list), or some step of parsing raises (`corrupt`). -/
inductive PdfDoc
  | ok (pages : List String)
  | corrupt (err : String)
deriving DecidableEq

/-- Embedding of `OllamaPDFSummarizer.extract_text_from_pdf`
(src/app1.py lines 32-42): concatenates the per-page texts in order
starting from `""`; any exception is caught, an error is shown, and
`None` is returned (partial text is discarded). -/
def extract_text_from_pdf : PdfDoc → Option String
  | .ok pages => some (pages.foldl (· ++ ·) "")
  | .corrupt _ => none

/-- The character budget `max_chars` (src/app1.py line 48). -/
def maxChars : Nat := 8000

/-- The fixed part of the f-string prompt before `{text}`
(src/app1.py lines 53-56, whitespace preserved from the source). -/
def promptHeader : String :=
  "Please provide a comprehensive summary of the following text. \n            Focus on the main points, key arguments, and important conclusions:\n\n            "

/-- The fixed part of the f-string prompt after `{text}`
(src/app1.py lines 56-58). -/
def promptFooter : String := "\n\n            Summary:"

/-- The fallback value of `result.get('response', 'No summary generated.')`
(src/app1.py line 79). -/
def noSummaryFallback : String := "No summary generated."

/-- The `st.error` message of the `except requests.exceptions.Timeout`
branch (src/app1.py line 85). -/
def timeoutMsg : String :=
  "Request timed out. Please try again with a shorter document."

/-- The `st.error` message of the non-200 branch (src/app1.py line 81),
with the status code interpolated. -/
def backendStatusMsg (status : Nat) : String :=
  "Error from Ollama: " ++ toString status

/-- The `st.error` message of the generic `RequestException` branch
(src/app1.py line 88), with `str(e)` interpolated. -/
def commErrMsg (desc : String) : String :=
  "Error communicating with Ollama: " ++ desc

/-- JSON body of a reply to `POST {base_url}/api/generate`, at the
granularity `summarize_text` inspects it: `response.json()` raises — with
the decode error's description — (`malformed`), or it yields data whose
`'response'` field is `some`/absent. -/
inductive JsonBody
  | malformed (desc : String)
  | object (response : Option String)
deriving DecidableEq

/-- Outcome of `requests.post(f"{base_url}/api/generate", ...)`:
the 120-second timeout elapsed (`requests.exceptions.Timeout`), some
other `RequestException` was raised (with `str(e)` as description), or
an HTTP response arrived. -/
inductive PostReply
  | timeout
  | reqException (desc : String)
  | http (status : Nat) (body : JsonBody)
deriving DecidableEq

/-- The failure classification of `summarize_text`'s `return None`
branches (the spec's §7 error kinds for SummarizerClient). -/
inductive FailKind
  | backendError (status : Nat)
  | timeoutError
  | networkError
deriving DecidableEq

/-- What `summarize_text` hands back: the returned string on success, or
`None` together with the `st.error` message of the branch taken. -/
inductive SummaryOutcome
  | success (text : String)
  | failure (kind : FailKind) (message : String)
deriving DecidableEq

/-- Whether a `summarize_text` outcome is the non-200-status failure. -/
def SummaryOutcome.isBackendError : SummaryOutcome → Bool
  | .failure (.backendError _) _ => true
  | _ => false

/-- Whether a `summarize_text` outcome is the generic-`RequestException`
failure. -/
def SummaryOutcome.isNetworkError : SummaryOutcome → Bool
  | .failure .networkError _ => true
  | _ => false

/-- Everything observable about one `summarize_text` call: its return
value (with failure classification), the prompt it built, whether the
`st.warning` truncation signal was emitted, and how many POST requests
it issued. -/
structure SummarizeOutput where
  result : SummaryOutcome
  prompt : String
  truncWarned : Bool
  requestsMade : Nat
deriving DecidableEq

/-- Embedding of `OllamaPDFSummarizer.summarize_text`
(src/app1.py lines 44-89).  Control flow, in source order:
truncate `text` to `max_chars` characters plus `"..."` and warn when it
is over budget (lines 49-51); build the prompt (lines 53-58); issue the
single POST (lines 70-75, modelled by consuming `reply`); on status 200
return the `'response'` field or the fallback (lines 77-79) — if
`response.json()` raises, the `JSONDecodeError` subclasses
`RequestException` in current `requests` and is caught by the handler of
lines 87-89; on non-200 status show the status error and return `None`
(lines 80-82); on `Timeout` show the timeout error (lines 84-86); on any
other `RequestException` show the communication error (lines 87-89). -/
def summarize_text (text : String) (reply : PostReply) : SummarizeOutput :=
  let sendText := if text.length > maxChars then text.take maxChars ++ "..." else text
  let prompt := promptHeader ++ sendText ++ promptFooter
  let result : SummaryOutcome :=
    match reply with
    | .timeout => .failure .timeoutError timeoutMsg
    | .reqException d => .failure .networkError (commErrMsg d)
    | .http status body =>
      if status == 200 then
        match body with
        | .object resp => .success (resp.getD noSummaryFallback)
        | .malformed d => .failure .networkError (commErrMsg d)
      else .failure (.backendError status) (backendStatusMsg status)
  { result := result
    prompt := prompt
    truncWarned := decide (text.length > maxChars)
    requestsMade := 1 }

/-- The environment one run of `main` (src/app1.py lines 91-210)
interacts with: the reply to `check_ollama_connection`'s GET, the reply
to `get_available_models`'s GET, the uploaded file if any, whether the
"Generate Summary" button was pressed, and the reply to the POST should
a summarization be issued. -/
structure MainEnv where
  checkReply : TagsReply
  listReply : TagsReply
  uploadedFile : Option PdfDoc
  generateClicked : Bool
  postReply : PostReply

/-- Where a run of `main` ends up. -/
inductive MainResult
  | noConnection
  | listingRaised
  | noModels
  | noFileUploaded
  | noUsableText
  | notGenerated
  | generated (out : SummarizeOutput)
deriving DecidableEq

/-- Observable trace of one run of `main`: whether
`extract_text_from_pdf` was invoked, whether `summarize_text` was
invoked, and the terminal result. -/
structure MainTrace where
  extractCalled : Bool
  summarizeCalled : Bool
  result : MainResult
deriving DecidableEq

/-- Embedding of `main` (src/app1.py lines 91-210) along the pipeline the
claims concern.  Source order: the sidebar checks
`check_ollama_connection` and returns on failure (lines 113, 124-132);
it lists models and returns when the list is empty (lines 117-123; an
uncaught exception from the listing propagates); with a connection and a
model, `extract_text_from_pdf` runs only once a file is uploaded
(lines 145-150); the preview/summarize block runs only under `if text:`
(line 152), so both `None` and `""` skip it; `summarize_text` runs only
when the button is pressed (lines 160-161). -/
def mainRun (env : MainEnv) : MainTrace :=
  if check_ollama_connection env.checkReply then
    match get_available_models env.listReply with
    | .raised => ⟨false, false, .listingRaised⟩
    | .ok models =>
      if models.isEmpty then ⟨false, false, .noModels⟩
      else
        match env.uploadedFile with
        | none => ⟨false, false, .noFileUploaded⟩
        | some doc =>
          match extract_text_from_pdf doc with
          | none => ⟨true, false, .noUsableText⟩
          | some text =>
            if text.isEmpty then ⟨true, false, .noUsableText⟩
            else if env.generateClicked then
              ⟨true, true, .generated (summarize_text text env.postReply)⟩
            else ⟨true, false, .notGenerated⟩
  else ⟨false, false, .noConnection⟩

/-- Word count as `len(s.split())` computes it (src/app1.py lines 186,
190): Python `str.split()` with no argument splits on runs of whitespace
and discards empty tokens, so leading/trailing whitespace contributes
nothing and `"".split()` is `[]`.  Modelled by a direct recursion over
the characters; `acc` holds the reversed current token. -/
def pyWordsAux : List Char → List Char → List (List Char)
  | [], acc => if acc.isEmpty then [] else [acc.reverse]
  | c :: rest, acc =>
    if c.isWhitespace then
      if acc.isEmpty then pyWordsAux rest [] else acc.reverse :: pyWordsAux rest []
    else pyWordsAux rest (c :: acc)

/-- The token count of Python `s.split()`. -/
def word_count (s : String) : Nat := (pyWordsAux s.data []).length

/-- Embedding of the statistics block of `main` (src/app1.py
lines 184-196): original word count, summary word count, and the
compression ratio `(1 - summary_words / original_words) * 100`, computed
only under the guard `if original_words > 0:` (line 194) and not shown
otherwise.  Python's true division is modelled over `ℚ`. -/
def summaryStatistics (originalText summary : String) : Nat × Nat × Option ℚ :=
  let original_words := word_count originalText
  let summary_words := word_count summary
  (original_words, summary_words,
    if original_words > 0 then
      some ((1 - (summary_words : ℚ) / (original_words : ℚ)) * 100)
    else none)

/-- A concrete 8001-character text used to exercise the truncation path. -/
def longText : String := String.mk (List.replicate 8001 'a')

theorem longText_length : longText.length = 8001 := by
  unfold longText
  rw [String.length_mk, List.length_replicate]

/-- C1: for every input text, `summarize_text` emits the truncation
warning exactly when the text exceeds 8000 characters; over budget, the
prompt embeds exactly the first 8000 characters followed by the marker
`"..."`; at or under budget, the prompt embeds the text unmodified; and
in both cases the operation proceeds to issue its single request rather
than failing. -/
theorem summarize_text_truncation (text : String) (reply : PostReply) :
    (summarize_text text reply).truncWarned = decide (text.length > maxChars)
    ∧ (summarize_text text reply).requestsMade = 1
    ∧ (text.length > maxChars →
        (summarize_text text reply).prompt
          = promptHeader ++ (text.take maxChars ++ "...") ++ promptFooter)
    ∧ (text.length ≤ maxChars →
        (summarize_text text reply).prompt
          = promptHeader ++ text ++ promptFooter) := by
  refine ⟨rfl, rfl, ?_, ?_⟩
  · intro h
    simp only [summarize_text]
    rw [if_pos h]
  · intro h
    simp only [summarize_text]
    rw [if_neg (by omega)]

/-- Witness for C1 at an 8001-character text and at `"hello"`. -/
theorem summarize_text_truncation_witness :
    (summarize_text longText PostReply.timeout).prompt
      = promptHeader ++ (longText.take maxChars ++ "...") ++ promptFooter
    ∧ (summarize_text "hello" PostReply.timeout).prompt
      = promptHeader ++ "hello" ++ promptFooter :=
  ⟨(summarize_text_truncation longText PostReply.timeout).2.2.1
      (by rw [longText_length]; decide),
   (summarize_text_truncation "hello" PostReply.timeout).2.2.2 (by decide)⟩

/-- C2 counterexample: on HTTP 200 with an unparsable body,
`summarize_text` does not fail with the backend-error branch; the
`JSONDecodeError` is swallowed by the generic `RequestException` handler,
i.e. the spec's `NetworkError`. -/
theorem malformed200_counterexample :
    ((summarize_text "Some document text."
        (PostReply.http 200
          (JsonBody.malformed "Expecting value: line 1 column 1 (char 0)"))).result).isBackendError
      = false
    ∧ ((summarize_text "Some document text."
        (PostReply.http 200
          (JsonBody.malformed "Expecting value: line 1 column 1 (char 0)"))).result).isNetworkError
      = true :=
  ⟨rfl, rfl⟩

/-- C2 (amended): for every text, an HTTP 200 reply whose body cannot be
parsed makes `summarize_text` fail with the generic communication
failure (the spec's `NetworkError`) carrying the decode error's
description, not with a `BackendError`. -/
theorem malformed200_is_network_failure (text desc : String) :
    (summarize_text text (PostReply.http 200 (JsonBody.malformed desc))).result
      = SummaryOutcome.failure FailKind.networkError (commErrMsg desc) := rfl

/-- C3: for every input text and backend reply, the prompt built by
`summarize_text` is the fixed template around a document portion of at
most 8000 characters, followed (inside the template) by the marker
`"..."` exactly when the truncation warning was raised. -/
theorem prompt_text_within_budget (text : String) (reply : PostReply) :
    ∃ portion : String,
      (summarize_text text reply).prompt
        = promptHeader
            ++ (portion ++ (if (summarize_text text reply).truncWarned then "..." else ""))
            ++ promptFooter
      ∧ portion.length ≤ maxChars := by
  by_cases h : text.length > maxChars
  · refine ⟨text.take maxChars, ?_, ?_⟩
    · simp only [summarize_text]
      rw [if_pos h]
      simp [h]
    · rw [String.take_eq, String.length_mk]
      simp
  · refine ⟨text, ?_, by omega⟩
    simp only [summarize_text]
    rw [if_neg h]
    simp [h]

/-- C5 counterexample: when the parsed body carries a present but empty
`response` field, `summarize_text` returns the empty string as a
success, so the claimed non-emptiness fails. -/
theorem empty_response_counterexample :
    (summarize_text "Some document text."
        (PostReply.http 200 (JsonBody.object (some "")))).result
      = SummaryOutcome.success ""
    ∧ ("" : String).length = 0 :=
  ⟨rfl, rfl⟩

/-- C5 (amended): every HTTP 200 reply with a parsable body yields a
success carrying the `response` field's value — which may be the empty
string — or the literal fallback `"No summary generated."` when the
field is absent; the fallback itself is non-empty. -/
theorem summarize_success_value (text : String) (resp : Option String) :
    (summarize_text text (PostReply.http 200 (JsonBody.object resp))).result
      = SummaryOutcome.success (resp.getD noSummaryFallback)
    ∧ (resp = none → 0 < (resp.getD noSummaryFallback).length) := by
  refine ⟨rfl, ?_⟩
  intro h
  subst h
  decide

/-- Witness for C5 (amended) at an absent `response` field. -/
theorem summarize_success_value_witness :
    0 < ((none : Option String).getD noSummaryFallback).length :=
  (summarize_success_value "Some document text." none).2 rfl

/-- C6: for every text, a request that exceeds the 120-second budget
makes `summarize_text` fail with the timeout branch, whose message tells
the caller to retry with a shorter document, after having issued exactly
one request (no automatic retry). -/
theorem summarize_timeout_policy (text : String) :
    (summarize_text text PostReply.timeout).result
      = SummaryOutcome.failure FailKind.timeoutError timeoutMsg
    ∧ timeoutMsg = "Request timed out. Please try again with a shorter document."
    ∧ (summarize_text text PostReply.timeout).requestsMade = 1 :=
  ⟨rfl, rfl, rfl⟩

/-- C8: `check_ollama_connection` answers `true` exactly when the health
request came back (within its 5-second bound, modelled by `TagsReply.http`)
with status 200; every raised `RequestException` and every non-200
status yields `false`, and the embedding is a total function (nothing
escapes to the caller). -/
theorem check_connection_iff (reply : TagsReply) :
    check_ollama_connection reply = true ↔ ∃ body, reply = TagsReply.http 200 body := by
  cases reply with
  | reqException =>
    simp [check_ollama_connection]
  | http status body =>
    simp only [check_ollama_connection, beq_iff_eq]
    constructor
    · intro h
      exact ⟨body, by rw [h]⟩
    · rintro ⟨b, hb⟩
      cases hb
      rfl

/-- Witness for C8: a 200 reply answers `true`, a raised exception
answers `false`. -/
theorem check_connection_iff_witness :
    check_ollama_connection (TagsReply.http 200 (TagsBody.object [])) = true
    ∧ check_ollama_connection TagsReply.reqException = false :=
  ⟨(check_connection_iff (TagsReply.http 200 (TagsBody.object []))).mpr
      ⟨TagsBody.object [], rfl⟩,
   rfl⟩

theorem namesFrom_map_some : ∀ names : List String, namesFrom (names.map some) = some names
  | [] => rfl
  | n :: rest => by
    simp only [List.map_cons, namesFrom, namesFrom_map_some rest]
    rfl

theorem namesFrom_absent (pre : List String) (post : List (Option String)) :
    namesFrom (pre.map some ++ none :: post) = none := by
  induction pre with
  | nil => rfl
  | cons p rest ih =>
    simp only [List.map_cons, List.cons_append, namesFrom, List.append_eq, ih]
    rfl

/-- C4 counterexample: a well-formed HTTP 200 body whose single `models`
entry lacks a `name` field makes `get_available_models` raise an
uncaught `KeyError` instead of returning the empty list. -/
theorem listmodels_missing_name_counterexample :
    get_available_models (TagsReply.http 200 (TagsBody.object [none]))
      = ListModelsOutcome.raised
    ∧ get_available_models (TagsReply.http 200 (TagsBody.object [none]))
      ≠ ListModelsOutcome.ok [] := by
  decide

/-- C4 (amended): `get_available_models` returns the ordered model names
on a well-formed HTTP 200 body, and the empty list on a network failure,
a non-200 status, or an unparsable body; but an HTTP 200 body whose
`models` entries lack a `name` field raises an uncaught `KeyError`
rather than returning the empty list. -/
theorem listmodels_policy :
    (∀ names : List String,
      get_available_models (TagsReply.http 200 (TagsBody.object (names.map some)))
        = ListModelsOutcome.ok names)
    ∧ get_available_models TagsReply.reqException = ListModelsOutcome.ok []
    ∧ get_available_models (TagsReply.http 200 TagsBody.malformed)
        = ListModelsOutcome.ok []
    ∧ (∀ (status : Nat) (body : TagsBody), status ≠ 200 →
        get_available_models (TagsReply.http status body) = ListModelsOutcome.ok [])
    ∧ (∀ (pre : List String) (post : List (Option String)),
        get_available_models
            (TagsReply.http 200 (TagsBody.object (pre.map some ++ none :: post)))
          = ListModelsOutcome.raised) := by
  refine ⟨?_, rfl, rfl, ?_, ?_⟩
  · intro names
    simp only [get_available_models, namesFrom_map_some names]
    rfl
  · intro status body h
    simp only [get_available_models]
    rw [if_neg (by simpa using h)]
  · intro pre post
    simp only [get_available_models, namesFrom_absent pre post]
    rfl

/-- Witness for C4 (amended) at a 500 status and at a one-model body. -/
theorem listmodels_policy_witness :
    get_available_models (TagsReply.http 500 TagsBody.malformed)
      = ListModelsOutcome.ok []
    ∧ get_available_models
        (TagsReply.http 200 (TagsBody.object [some "llama3.2:latest"]))
      = ListModelsOutcome.ok ["llama3.2:latest"] :=
  ⟨listmodels_policy.2.2.2.1 500 TagsBody.malformed (by decide),
   listmodels_policy.1 ["llama3.2:latest"]⟩

/-- C9: the statistics block reports whitespace-split word counts of the
original text and the summary; the compression ratio is omitted when the
original word count is zero (so the division is never taken), and equals
`(1 - summaryWords / originalWords) * 100` otherwise. -/
theorem compression_ratio_guarded (originalText summary : String) :
    (summaryStatistics originalText summary).1 = word_count originalText
    ∧ (summaryStatistics originalText summary).2.1 = word_count summary
    ∧ (word_count originalText = 0 →
        (summaryStatistics originalText summary).2.2 = none)
    ∧ (0 < word_count originalText →
        (summaryStatistics originalText summary).2.2
          = some ((1 - (word_count summary : ℚ) / (word_count originalText : ℚ))
              * 100)) := by
  refine ⟨rfl, rfl, ?_, ?_⟩
  · intro h
    simp [summaryStatistics, h]
  · intro h
    simp only [summaryStatistics]
    rw [if_pos h]

/-- Witness for C9: a whitespace-only original omits the ratio; a
two-word original with a one-word summary takes the guarded branch. -/
theorem compression_ratio_guarded_witness :
    (summaryStatistics "   " "some summary").2.2 = none
    ∧ (summaryStatistics "hello world" "ok").2.2
        = some ((1 - (word_count "ok" : ℚ) / (word_count "hello world" : ℚ)) * 100) :=
  ⟨(compression_ratio_guarded "   " "some summary").2.2.1 rfl,
   (compression_ratio_guarded "hello world" "ok").2.2.2 (by decide)⟩

theorem foldl_append_all_empty (pages : List String)
    (h : pages.all (fun p => p.isEmpty) = true) :
    ∀ acc : String, pages.foldl (· ++ ·) acc = acc := by
  induction pages with
  | nil => intro acc; rfl
  | cons p rest ih =>
    intro acc
    simp only [List.all_cons, Bool.and_eq_true] at h
    obtain ⟨hp, hrest⟩ := h
    rw [(String.isEmpty_iff p).mp hp, List.foldl_cons, String.append_empty]
    exact ih hrest acc

theorem extract_all_empty (pages : List String)
    (h : pages.all (fun p => p.isEmpty) = true) :
    extract_text_from_pdf (PdfDoc.ok pages) = some "" := by
  simp only [extract_text_from_pdf]
  rw [foldl_append_all_empty pages h ""]

/-- C7: whenever the reachability check answers `false`, `main` halts at
the probing stage without ever calling `extract_text_from_pdf`; the
extraction stage is reached only after a `true` check and a non-empty
model listing; and summarization is reached only through extraction. -/

theorem main_gating (env : MainEnv) :
    (check_ollama_connection env.checkReply = false →
      mainRun env = ⟨false, false, MainResult.noConnection⟩)
    ∧ ((mainRun env).extractCalled = true →
        check_ollama_connection env.checkReply = true
        ∧ ∃ names, get_available_models env.listReply = ListModelsOutcome.ok names
            ∧ names ≠ [])
    ∧ ((mainRun env).summarizeCalled = true → (mainRun env).extractCalled = true) := by
  refine ⟨?_, ?_, ?_⟩
  · intro h
    simp [mainRun, h]
  · intro h
    simp only [mainRun] at h
    split at h
    · rename_i hc
      refine ⟨hc, ?_⟩
      split at h
      · simp at h
      · rename_i models hm
        split at h
        · simp at h
        · rename_i hne
          exact ⟨models, hm, by simpa using hne⟩
    · simp at h
  · intro h
    simp only [mainRun] at h ⊢
    repeat' split at h
    all_goals simp_all

/-- An environment in which the probe's GET raises. -/
def envStub : MainEnv :=
  { checkReply := TagsReply.reqException
    listReply := TagsReply.reqException
    uploadedFile := none
    generateClicked := false
    postReply := PostReply.timeout }

/-- An environment for a fully successful run over `"hello world"`. -/
def envHappy : MainEnv :=
  { checkReply := TagsReply.http 200 (TagsBody.object [some "m1"])
    listReply := TagsReply.http 200 (TagsBody.object [some "m1"])
    uploadedFile := some (PdfDoc.ok ["hello world"])
    generateClicked := true
    postReply := PostReply.http 200 (JsonBody.object (some "A greeting.")) }

/-- Witness for C7: an unreachable backend halts at probing; a reachable
one with one model reaches extraction. -/
theorem main_gating_witness :
    mainRun envStub = ⟨false, false, MainResult.noConnection⟩
    ∧ (check_ollama_connection envHappy.checkReply = true
        ∧ ∃ names, get_available_models envHappy.listReply = ListModelsOutcome.ok names
            ∧ names ≠ []) :=
  ⟨(main_gating envStub).1 rfl, (main_gating envHappy).2.1 rfl⟩

/-- C10: a document the parser opens successfully whose pages all yield
empty text (in particular one with zero pages) makes
`extract_text_from_pdf` return the empty string as a success value, and
a run of `main` on such a document never invokes `summarize_text` — the
empty result is handled like a failed extraction. -/
theorem empty_extraction_flow (pages : List String) (env : MainEnv) :
    (pages.all (fun p => p.isEmpty) = true →
      extract_text_from_pdf (PdfDoc.ok pages) = some "")
    ∧ (env.uploadedFile = some (PdfDoc.ok pages) →
        pages.all (fun p => p.isEmpty) = true →
        (mainRun env).summarizeCalled = false) := by
  refine ⟨extract_all_empty pages, ?_⟩
  intro hup hall
  have hex := extract_all_empty pages hall
  simp only [mainRun, hup, hex]
  repeat' split
  all_goals simp_all [show ("" : String).isEmpty = true from rfl]

/-- An environment whose uploaded document parses to zero pages. -/
def envEmptyDoc : MainEnv :=
  { checkReply := TagsReply.http 200 (TagsBody.object [some "m1"])
    listReply := TagsReply.http 200 (TagsBody.object [some "m1"])
    uploadedFile := some (PdfDoc.ok [])
    generateClicked := true
    postReply := PostReply.timeout }

/-- Witness for C10 at a zero-page document, with the summarize button
pressed and everything else healthy. -/
theorem empty_extraction_flow_witness :
    extract_text_from_pdf (PdfDoc.ok []) = some ""
    ∧ (mainRun envEmptyDoc).summarizeCalled = false :=
  ⟨(empty_extraction_flow [] envEmptyDoc).1 rfl,
   (empty_extraction_flow [] envEmptyDoc).2 rfl rfl⟩

end OllamaPDFSummarizer
